import Mathlib

/-!
Verification development for the PTZ-Control-System gateway.

The Python sources (`core/protocols.py`, `core/controller.py`) are embedded
shallowly: angles (Python floats carrying small decimal values) are modelled
as rationals `ℚ`, byte strings as `List ℕ`, command strings as `String`
manipulated through structural `List Char` helpers, fallible hardware reads
as explicit input streams `List (List ℕ)`, and exceptions as `Except`.
Python's `%` on floats (sign of the divisor, here always positive) is
`qfmod`, `int()` (truncation toward zero) is `pyInt`, `round()`
(banker's rounding) is `pyRound`, and `//` on ints is `Int.fdiv`.
-/

set_option allowUnsafeReducibility true in
attribute [semireducible] Rat.sub Rat.add Rat.mul Rat.div Rat.inv

deriving instance DecidableEq for Except

namespace PTZ

/-- Python `a % b` for rationals with a positive modulus: the representative
of `a` in `[0, b)` (Python's float `%` takes the sign of the divisor). -/
def qfmod (a b : ℚ) : ℚ := a - b * (⌊a / b⌋ : ℤ)

/-- Python `int()` on a rational: truncation toward zero. -/
def pyInt (q : ℚ) : ℤ := if 0 ≤ q then ⌊q⌋ else -⌊-q⌋

/-- Python `round()` to the nearest integer, ties to the even integer. -/
def pyRound (q : ℚ) : ℤ :=
  let f := ⌊q⌋
  let r := q - (f : ℚ)
  if r < 1/2 then f
  else if 1/2 < r then f + 1
  else if f % 2 = 0 then f else f + 1

/-- Python `math.isclose(a, b, rel_tol, abs_tol)`. -/
def math_isclose (a b rel_tol abs_tol : ℚ) : Bool :=
  decide (|a - b| ≤ max (rel_tol * max |a| |b|) abs_tol)

/-! ## Character-list string helpers

Lean's `String` functions do not unfold in the kernel, so the string
manipulation the controller performs (`startswith`, `split`, `strip`,
`lower`, slicing) is re-implemented structurally over `List Char`. -/

/-- Whether `s` starts with the pattern `p` (Python `str.startswith`). -/
def startsWithChars : List Char → List Char → Bool
  | _, [] => true
  | [], _ :: _ => false
  | c :: cs, p :: ps => c = p && startsWithChars cs ps

/-- Whether `s` ends with the pattern `p` (Python `str.endswith`). -/
def endsWithChars (s p : List Char) : Bool := startsWithChars s.reverse p.reverse

/-- Split a character list at every separator character, keeping empty
pieces (Python `str.split('_')`). -/
def splitSepAux (p : Char → Bool) : List Char → List Char → List (List Char)
  | [], acc => [acc.reverse]
  | c :: cs, acc => if p c then acc.reverse :: splitSepAux p cs [] else splitSepAux p cs (c :: acc)

/-- Python `str.split()` with no argument: split on whitespace runs,
dropping empty pieces. -/
def pySplitWS (s : List Char) : List (List Char) :=
  (splitSepAux (fun c => c.isWhitespace) s []).filter (· ≠ [])

/-- Python `str.strip()`: drop leading and trailing whitespace. -/
def trimChars (cs : List Char) : List Char :=
  ((cs.dropWhile Char.isWhitespace).reverse.dropWhile Char.isWhitespace).reverse

/-- Lower-case every character (Python `str.lower`). -/
def toLowerChars (cs : List Char) : List Char := cs.map Char.toLower

/-- Numeric value of a run of decimal digit characters. -/
def digitsVal (cs : List Char) : ℕ := cs.foldl (fun n c => 10 * n + (c.toNat - 48)) 0

/-- Python `float()` on an unsigned plain decimal literal
`digits [. digits]` (the only shapes of token this program receives);
`none` models the `ValueError` Python raises on anything else. -/
def parseUnsignedFloat (cs : List Char) : Option ℚ :=
  let intDigits := cs.takeWhile (·.isDigit)
  let rest := cs.drop intDigits.length
  match rest with
  | [] => if intDigits.isEmpty then none else some ((digitsVal intDigits : ℕ) : ℚ)
  | '.' :: frac =>
    if frac.all (·.isDigit) && (!intDigits.isEmpty || !frac.isEmpty) then
      some (((digitsVal intDigits : ℕ) : ℚ) + ((digitsVal frac : ℕ) : ℚ) / (10 : ℚ) ^ frac.length)
    else none
  | _ => none

/-- Python `float()` on a plain signed decimal literal. -/
def parseFloatChars : List Char → Option ℚ
  | '-' :: rest => (parseUnsignedFloat rest).map (fun q => -q)
  | '+' :: rest => parseUnsignedFloat rest
  | cs => parseUnsignedFloat cs

/-- Decimal digit characters of a natural number (the fuel argument bounds
the recursion; it is always sufficient). -/
def natDigitsAux : ℕ → ℕ → List Char → List Char
  | 0, _, acc => acc
  | fuel + 1, n, acc =>
    let d := Char.ofNat (48 + n % 10)
    if n < 10 then d :: acc else natDigitsAux fuel (n / 10) (d :: acc)

/-- Decimal rendering of a natural number. -/
def natChars (n : ℕ) : List Char := natDigitsAux (n + 1) n []

/-- Decimal rendering of an integer (Python `str(int)` / f-string `{n}`). -/
def intChars (n : ℤ) : List Char :=
  if n < 0 then '-' :: natChars n.natAbs else natChars n.natAbs

/-- Python `"%03d" % n`: zero-pad to overall width 3 (the sign counts
toward the width). -/
def fmt3 (n : ℤ) : List Char :=
  if n < 0 then '-' :: (List.replicate (2 - (natChars n.natAbs).length) '0' ++ natChars n.natAbs)
  else List.replicate (3 - (natChars n.natAbs).length) '0' ++ natChars n.natAbs

/-! ## PelcoDProtocol (`core/protocols.py`) -/

/-- The `angle_correction` block of the Pelco configuration. -/
structure AngleCorrection where
  min_elevation : ℚ
  max_elevation : ℚ
  azimuth_offset : ℚ
  initial_azimuth : ℚ

/-- `PelcoDProtocol.generate_packet`: 7-byte frame
`[0xFF, address, command1, command2, data1, data2, checksum]` with
`checksum = sum(header[1:]) % 256`. -/
def generate_packet (address command1 command2 data1 data2 : ℕ) : List ℕ :=
  [0xFF, address, command1, command2, data1, data2,
   (address + command1 + command2 + data1 + data2) % 256]

/-- `PelcoDProtocol._validate_response`: recomputes the checksum over
`response[1:-1]`, reads `response[-1]` — which raises `IndexError`
(modelled as `Except.error`) on an empty response, before any
configuration check — then raises `ValueError` when the configured
`min_elevation` exceeds `max_elevation`, and otherwise compares the two
checksums. -/
def validate_response (cfg : AngleCorrection) (response : List ℕ) : Except String Bool :=
  let expected_checksum := ((response.drop 1).dropLast).sum % 256
  match response.getLast? with
  | none => Except.error "IndexError: response is empty"
  | some actual_checksum =>
    if cfg.min_elevation > cfg.max_elevation then
      Except.error "min elevation exceeds max elevation"
    else
      Except.ok (expected_checksum == actual_checksum)

/-- `PelcoDProtocol._apply_angle_correction`: `corrected = raw/100`; for
elevation (0x53) add `abs(min_elevation)`, wrap mod 360 and rescale; for
azimuth (0x51) add `azimuth_offset + initial_azimuth`, wrap mod 360 and
rescale; other command types return the raw value unchanged. -/
def apply_angle_correction (cfg : AngleCorrection) (raw_value : ℤ) (cmd_type : ℕ) : ℤ :=
  let corrected : ℚ := (raw_value : ℚ) / 100
  let abs_min : ℚ := |cfg.min_elevation|
  if cmd_type = 0x53 then
    pyInt (qfmod (corrected + abs_min) 360 * 100)
  else if cmd_type = 0x51 then
    pyInt (qfmod (corrected + cfg.azimuth_offset + cfg.initial_azimuth) 360 * 100)
  else raw_value

/-- One `hw.recv` from a modelled input stream: pops the next chunk, or
returns the empty read when the stream is exhausted. -/
def recvOne (s : List (List ℕ)) : List ℕ × List (List ℕ) :=
  match s with
  | [] => ([], [])
  | h :: t => (h, t)

/-- The buffer-flush loop of `query_angle`: keeps reading (at most `fuel`
times, 10 in the source) until a read comes back empty. -/
def flushStream : ℕ → List (List ℕ) → List (List ℕ)
  | 0, s => s
  | _ + 1, [] => []
  | fuel + 1, h :: t => if h = [] then t else flushStream fuel t

/-- The retry loop of `query_angle`: up to `retries` reads, skipping empty
reads and exact echoes of the outgoing packet; a 7-byte response is
checksum-validated (which can raise, hence `Except`) and on success the
value `(response[4] << 8) | response[5]` is angle-corrected and returned. -/
def query_read_loop (cfg : AngleCorrection) (packet : List ℕ) (query_cmd : ℕ) :
    ℕ → List (List ℕ) → Except String (Option ℤ)
  | 0, _ => Except.ok none
  | retries + 1, s =>
    let (response, rest) := recvOne s
    if response = [] ∨ response = packet then query_read_loop cfg packet query_cmd retries rest
    else if response.length = 7 then
      match validate_response cfg response with
      | Except.error e => Except.error e
      | Except.ok true =>
        let raw_value : ℕ := (response.getD 4 0) <<< 8 ||| response.getD 5 0
        Except.ok (some (apply_angle_correction cfg (raw_value : ℤ) query_cmd))
      | Except.ok false => query_read_loop cfg packet query_cmd retries rest
    else query_read_loop cfg packet query_cmd retries rest

/-- `PelcoDProtocol.query_angle`: flush at most 10 stale reads, send the
query frame (`send_ok` models the transport's send result; on failure the
method returns `None`), then run the 3-attempt read loop. -/
def query_angle (cfg : AngleCorrection) (address query_cmd : ℕ) (send_ok : Bool)
    (stream : List (List ℕ)) : Except String (Option ℤ) :=
  let packet := generate_packet address 0 query_cmd 0 0
  let flushed := flushStream 10 stream
  if send_ok then query_read_loop cfg packet query_cmd 3 flushed
  else Except.ok none

/-- The wire elevation computed by `PelcoDProtocol._handle_elevation`:
`angle - abs_min` when `angle ≥ abs_min`, else
`360 + min_elevation + angle`. -/
def handle_elevation_adjust (cfg : AngleCorrection) (angle : ℚ) : ℚ :=
  let abs_min : ℚ := |cfg.min_elevation|
  if abs_min ≤ angle then angle - abs_min else 360 + cfg.min_elevation + angle

/-- `PelcoDProtocol._send_angle_command` scales the wire angle:
`value = int(angle * 100)` (then split big-endian into two data bytes). -/
def send_angle_value (angle : ℚ) : ℤ := pyInt (angle * 100)

/-- The success value of `PelcoDProtocol.set_angle`: elevation (0x4D)
always transmits, azimuth (0x4B) rejects negative angles before
transmitting, any other command code returns `False`; a transmitted
frame's result is the transport send result `hw_send_ok`. -/
def set_angle_ok (hw_send_ok : Bool) (angle : ℚ) (set_cmd : ℕ) : Bool :=
  if set_cmd = 0x4D then hw_send_ok
  else if set_cmd = 0x4B then (if angle < 0 then false else hw_send_ok)
  else false

/-! ## RotationManager (`core/controller.py`) -/

/-- The fields of `RotationManager`: soft limits and offset from the
configuration plus the mutable tracking state. -/
structure RotState where
  min_az : ℚ
  max_az : ℚ
  offset : ℚ
  current_true_az : ℚ
  last_raw_az : ℚ
  initialized : Bool

/-- `RotationManager.update_raw_angle`: offset-correct and wrap the raw
sample; the first sample seeds the state, later samples advance
`current_true_az` by the `±360`-normalized difference. -/
def update_raw_angle (s : RotState) (raw_az : ℚ) : RotState :=
  let corrected_raw := qfmod (raw_az + s.offset) 360
  if s.initialized = false then
    { s with last_raw_az := corrected_raw, current_true_az := corrected_raw, initialized := true }
  else
    let diff0 := corrected_raw - s.last_raw_az
    let diff := if diff0 < -180 then diff0 + 360 else if diff0 > 180 then diff0 - 360 else diff0
    { s with current_true_az := s.current_true_az + diff, last_raw_az := corrected_raw }

/-- Planned rotation direction. -/
inductive Dir
  | left
  | right
deriving DecidableEq, Repr

/-- `RotationManager.get_target_plan`: normalize current and requested
azimuth into `[0,360)`, pick the shortest path (tie within 0.1° of 180°
broken by which normalized value is larger), and check the resulting
unwrapped target against the soft limits. Returns
`(target_true, direction, is_safe)`. -/
def get_target_plan (s : RotState) (target_req_az : ℚ) : ℚ × Dir × Bool :=
  let target_norm := qfmod target_req_az 360
  let current_norm := qfmod s.current_true_az 360
  let diff := qfmod (target_norm - current_norm) 360
  let dd : Dir × ℚ :=
    if math_isclose diff 180 (1/1000000000) (1/10) then
      (if target_norm > current_norm then Dir.right else Dir.left, 180)
    else if diff < 180 then (Dir.right, diff)
    else (Dir.left, 360 - diff)
  let target_true :=
    if dd.1 = Dir.right then s.current_true_az + dd.2 else s.current_true_az - dd.2
  (target_true, dd.1, decide (s.min_az ≤ target_true ∧ target_true ≤ s.max_az))

/-! ## ControlSystem command handling (`core/controller.py`)

One command dispatch is pure given the outcome of the hardware exchanges
it performs, so those outcomes are the environment: the two angle-query
results (already angle-corrected centidegree integers, as `query_angle`
returns them) and the transport send results of the two set commands. -/

/-- Outcomes of the Pelco exchanges available to one dispatched command. -/
structure Env where
  query_az : Option ℤ
  query_el : Option ℤ
  send_az_ok : Bool
  send_el_ok : Bool

/-- The controller-session state a dispatched command can read or write. -/
structure CState where
  rot : RotState
  manual_move_expire : ℚ
  is_returning : Bool

/-- The parse of `W<az> <el>` arguments in
`_execute_angle_control_command`: whitespace-split, `float(parts[0])` and
`float(parts[1])`; `none` models the caught `IndexError`/`ValueError`. -/
def parseTwoFloats (w_cmd : List Char) : Option (ℚ × ℚ) :=
  let parts := pySplitWS w_cmd
  match parts.get? 0, parts.get? 1 with
  | some t0, some t1 =>
    match parseFloatChars t0, parseFloatChars t1 with
    | some a, some b => some (a, b)
    | _, _ => none
  | _, _ => none

/-- `ControlSystem._execute_angle_control_command`: parse the two floats
(empty reply on failure); query the current azimuth (empty reply when
unavailable), feed it to the rotation manager; reject with `"?> \r\n"`
when the plan is unsafe; otherwise set azimuth (`target % 360`) and
elevation and reply `"ACK\r\n"` in both the full-success and the
partial-failure branch of the source. -/
def execute_angle_control (env : Env) (rot : RotState) (w_cmd : List Char) :
    String × RotState :=
  match parseTwoFloats w_cmd with
  | none => ("", rot)
  | some (target_az_req, target_el_req) =>
    match env.query_az with
    | none => ("", rot)
    | some curr_az_raw =>
      let rot1 := update_raw_angle rot ((curr_az_raw : ℚ) / 100)
      let plan := get_target_plan rot1 target_az_req
      if plan.2.2 = false then ("?> \r\n", rot1)
      else
        let success_az := set_angle_ok env.send_az_ok (qfmod target_az_req 360) 0x4B
        let success_el := set_angle_ok env.send_el_ok target_el_req 0x4D
        if success_az && success_el then ("ACK\r\n", rot1) else ("ACK\r\n", rot1)

/-- The `AZ=%03d EL=%03d\r\n` reply of the angle query. -/
def az_el_response (az_deg el_deg : ℤ) : String :=
  String.mk ("AZ=".data ++ fmt3 az_deg ++ " EL=".data ++ fmt3 el_deg ++ "\r\n".data)

/-- `ControlSystem._execute_angle_query_command`: needs both query
results; feeds azimuth to the rotation manager and formats the
integer-degree reply (`//100`, Python floor division). -/
def execute_angle_query (env : Env) (rot : RotState) : String × RotState :=
  match env.query_az, env.query_el with
  | some azimuth, some elevation =>
    let rot1 := update_raw_angle rot ((azimuth : ℚ) / 100)
    (az_el_response (Int.fdiv azimuth 100) (Int.fdiv elevation 100), rot1)
  | _, _ => ("", rot)

/-- `ControlSystem._handle_stop`: sends `move('stop')`, clears the manual
timer and `is_returning`, replies `"\r\n"`. -/
def handle_stop (st : CState) : String × CState :=
  ("\r\n", { st with manual_move_expire := 0, is_returning := false })

/-- `ControlSystem._handle_manual_gui_command`: `action` is the piece
after the first `_`, lower-cased; `stop` clears the manual timer, any
other action moves and arms the timer `now + 0.5`; both reply `"ACK"`
(no CRLF in the source). -/
def handle_manual (st : CState) (now : ℚ) (cmd : List Char) : String × CState :=
  let action := toLowerChars (((splitSepAux (fun c => c = '_') cmd []).getD 1 []))
  if action = "stop".data then ("ACK", { st with manual_move_expire := 0 })
  else ("ACK", { st with manual_move_expire := now + 1/2 })

/-- `ControlSystem._handle_setpos`: whitespace-split must give exactly two
float tokens (else the caught `ValueError` yields the empty reply); both
are rounded with Python `round` and re-rendered into a `W`-style command
for the standard control path. No elevation sign check appears in the
source. -/
def handle_setpos (env : Env) (rot : RotState) (cmd : List Char) : String × RotState :=
  match pySplitWS cmd with
  | [t0, t1] =>
    match parseFloatChars t0, parseFloatChars t1 with
    | some azi, some ele =>
      execute_angle_control env rot (intChars (pyRound azi) ++ ' ' :: intChars (pyRound ele))
    | _, _ => ("", rot)
  | _ => ("", rot)

/-- `ControlSystem._handle_combined_command`: extract the embedded `W`
body (`cmd[3:]` after `C2W`, else `cmd[1:-2]`), run angle control, and
only on a truthy (non-empty) control reply run the angle query. -/
def handle_combined (env : Env) (rot : RotState) (cmd : List Char) : String × RotState :=
  let w_cmd :=
    if startsWithChars cmd "C2W".data then cmd.drop 3 else ((cmd.drop 1).dropLast).dropLast
  let wr := execute_angle_control env rot w_cmd
  if wr.1 ≠ "" then execute_angle_query env wr.2 else ("", wr.2)

/-- `ControlSystem._process_command`: `M_` first, then the combined
`C2W...`/`W...C2` forms, then the prefix table in insertion order
`C2`, `W`, `S`, `\set_pos` (argument stripped), else the empty reply. -/
def process_command (env : Env) (now : ℚ) (st : CState) (cmd : String) : String × CState :=
  let c := cmd.data
  if startsWithChars c "M_".data then handle_manual st now c
  else if startsWithChars c "C2W".data || (startsWithChars c "W".data && endsWithChars c "C2".data) then
    let r := handle_combined env st.rot c
    (r.1, { st with rot := r.2 })
  else if startsWithChars c "C2".data then
    let r := execute_angle_query env st.rot
    (r.1, { st with rot := r.2 })
  else if startsWithChars c "W".data then
    let r := execute_angle_control env st.rot (trimChars (c.drop 1))
    (r.1, { st with rot := r.2 })
  else if startsWithChars c "S".data then handle_stop st
  else if startsWithChars c "\\set_pos".data then
    let r := handle_setpos env st.rot (trimChars (c.drop 8))
    (r.1, { st with rot := r.2 })
  else ("", st)

/-- One tick of `ControlSystem._run` restricted to command dispatch and
the dead-man check: process any incoming command, then, when the manual
timer is armed and `now` has passed it, issue one `move('stop')`
(the returned `Bool`) and disarm the timer. -/
def loop_tick (env : Env) (now : ℚ) (incoming : Option String) (st : CState) :
    String × Bool × CState :=
  let r :=
    match incoming with
    | some cmd => process_command env now st cmd
    | none => ("", st)
  if r.2.manual_move_expire > 0 ∧ now > r.2.manual_move_expire then
    (r.1, true, { r.2 with manual_move_expire := 0 })
  else (r.1, false, r.2)

/-! ## Shared concrete instances -/

/-- Default soft limits `(-360, 360)`, zero offset, fresh tracking state. -/
def initRotState : RotState :=
  { min_az := -360, max_az := 360, offset := 0
    current_true_az := 0, last_raw_az := 0, initialized := false }

/-- The spec's elevation-mapping example configuration:
`min_elevation = -10`. -/
def elevCfg : AngleCorrection :=
  { min_elevation := -10, max_elevation := 90, azimuth_offset := 0, initial_azimuth := 0 }

/-- A configuration with inverted elevation limits (`min > max`). -/
def invCfg : AngleCorrection :=
  { min_elevation := 1, max_elevation := 0, azimuth_offset := 0, initial_azimuth := 0 }

/-- An environment where every hardware exchange succeeds and both axes
read zero. -/
def benignEnv : Env :=
  { query_az := some 0, query_el := some 0, send_az_ok := true, send_el_ok := true }

/-- A fresh controller state over `initRotState`. -/
def cst0 : CState := { rot := initRotState, manual_move_expire := 0, is_returning := false }

/-! ## Arithmetic facts about the Python helpers -/

theorem qfmod_nonneg (a : ℚ) {b : ℚ} (hb : 0 < b) : 0 ≤ qfmod a b := by
  have h1 : ((⌊a / b⌋ : ℚ)) ≤ a / b := Int.floor_le _
  have h2 : b * ((⌊a / b⌋ : ℚ)) ≤ b * (a / b) := mul_le_mul_of_nonneg_left h1 hb.le
  have h3 : b * (a / b) = a := by field_simp
  unfold qfmod
  linarith

theorem qfmod_lt (a : ℚ) {b : ℚ} (hb : 0 < b) : qfmod a b < b := by
  have h1 : a / b < (⌊a / b⌋ : ℚ) + 1 := Int.lt_floor_add_one _
  have h2 : b * (a / b) < b * ((⌊a / b⌋ : ℚ) + 1) := mul_lt_mul_of_pos_left h1 hb
  have h3 : b * (a / b) = a := by field_simp
  have h4 : b * ((⌊a / b⌋ : ℚ) + 1) = b * ((⌊a / b⌋ : ℚ)) + b := by ring
  unfold qfmod
  linarith

theorem qfmod_eq_self {a b : ℚ} (hb : 0 < b) (h0 : 0 ≤ a) (h1 : a < b) : qfmod a b = a := by
  have hz : ⌊a / b⌋ = 0 :=
    Int.floor_eq_zero_iff.mpr (Set.mem_Ico.mpr ⟨div_nonneg h0 hb.le, (div_lt_one hb).mpr h1⟩)
  unfold qfmod
  rw [hz]
  push_cast
  ring

theorem qfmod_add_left (a : ℚ) {b : ℚ} (hb : b ≠ 0) : qfmod (b + a) b = qfmod a b := by
  have h1 : (b + a) / b = a / b + 1 := by
    rw [add_div, div_self hb, add_comm]
  unfold qfmod
  rw [h1, Int.floor_add_one]
  push_cast
  ring

theorem pyInt_intCast (n : ℤ) : pyInt (n : ℚ) = n := by
  unfold pyInt
  split_ifs with h
  · exact Int.floor_intCast n
  · rw [← Int.cast_neg, Int.floor_intCast, neg_neg]

/-! ## Claim theorems -/

/-- C1 (amended): `get_target_plan` reports `is_safe` exactly when
`min_az ≤ target_true ≤ max_az` where `target_true` is the current
unwrapped azimuth plus/minus the planned distance, and with soft limits
(−360, 360) and `current_true_az = 0` a request for 200 yields direction
left, distance 160, `target_true = −160`, safe; but the requested azimuth
is normalized mod 360 before planning, so a request for 400 behaves
exactly like a request for 40 — direction right, distance 40,
`target_true = 40` — and is reported safe, not rejected. -/
theorem C1_target_plan :
    (∀ (s : RotState) (t : ℚ),
        (get_target_plan s t).2.2 = true ↔
          s.min_az ≤ (get_target_plan s t).1 ∧ (get_target_plan s t).1 ≤ s.max_az) ∧
    get_target_plan { initRotState with initialized := true } 200 = (-160, Dir.left, true) ∧
    get_target_plan { initRotState with initialized := true } 400 = (40, Dir.right, true) := by
  refine ⟨fun s t => ?_, by decide, by decide⟩
  simp [get_target_plan]

/-- C1 counterexample: with soft limits (−360, 360) and current true
azimuth 0 the request for 400 is reported safe (`is_safe = true`),
contradicting the claim that it is rejected. -/
theorem C1_counterexample :
    (get_target_plan { initRotState with initialized := true } 400).2.2 = true := by decide

/-- C4 (amended): on every non-first call of `update_raw_angle` from a
state whose stored `last_raw_az` lies in `[0, 360)` (an invariant of the
update itself), the increment applied to `current_true_az` lies in the
closed interval `[−180, 180]` — the boundary `−180` is itself attainable,
so the half-open interval `(−180, 180]` of the claim is off by that
endpoint — and `last_raw_az` is set to the offset-corrected sample;
the raw sequence 350 → 10 → 30 advances the true azimuth from seed 350
to 370 and then 390, never snapping backward. -/
theorem C4_unwrap :
    (∀ (s : RotState) (raw : ℚ), s.initialized = true →
        0 ≤ s.last_raw_az → s.last_raw_az < 360 →
        (-180 ≤ (update_raw_angle s raw).current_true_az - s.current_true_az ∧
         (update_raw_angle s raw).current_true_az - s.current_true_az ≤ 180 ∧
         (update_raw_angle s raw).last_raw_az = qfmod (raw + s.offset) 360)) ∧
    ((update_raw_angle initRotState 350).current_true_az = 350 ∧
     (update_raw_angle (update_raw_angle initRotState 350) 10).current_true_az = 370 ∧
     (update_raw_angle (update_raw_angle (update_raw_angle initRotState 350) 10) 30).current_true_az
       = 390) := by
  refine ⟨fun s raw hinit hlo hhi => ?_, by decide⟩
  have hc0 : 0 ≤ qfmod (raw + s.offset) 360 := qfmod_nonneg _ (by norm_num)
  have hc1 : qfmod (raw + s.offset) 360 < 360 := qfmod_lt _ (by norm_num)
  unfold update_raw_angle
  rw [if_neg (by simp [hinit])]
  simp only
  refine ⟨?_, ?_, by trivial⟩
  · split_ifs <;> linarith
  · split_ifs <;> linarith

/-- C4 counterexample: raw sample 180 then 0 (zero offset) gives a
difference of exactly −180, which the source leaves unadjusted, so the
applied increment is −180 — outside the claimed half-open interval
`(−180, 180]`. -/
theorem C4_counterexample :
    (update_raw_angle (update_raw_angle initRotState 180) 0).current_true_az
        - (update_raw_angle initRotState 180).current_true_az = -180 ∧
    ¬(-180 < (update_raw_angle (update_raw_angle initRotState 180) 0).current_true_az
        - (update_raw_angle initRotState 180).current_true_az) := by decide

/-- C6 (confirmed): with a configuration satisfying
`min_elevation ≤ max_elevation`, every frame produced by
`generate_packet` with byte-valued command and data fields (and the
default address 1) passes `_validate_response`'s checksum validation. -/
theorem C6_checksum_roundtrip (cfg : AngleCorrection) (command1 command2 data1 data2 : ℕ)
    (hcfg : cfg.min_elevation ≤ cfg.max_elevation)
    (h1 : command1 < 256) (h2 : command2 < 256) (h3 : data1 < 256) (h4 : data2 < 256) :
    validate_response cfg (generate_packet 1 command1 command2 data1 data2) = Except.ok true := by
  unfold validate_response generate_packet
  simp [List.dropLast, List.getLast?, List.getLast, not_lt.mpr hcfg, Nat.beq_eq_true_eq]
  omega

/-- C6 witness: a concrete frame (azimuth query under the example
configuration) passes validation. -/
theorem C6_checksum_roundtrip_witness :
    validate_response elevCfg (generate_packet 1 0 0x51 0 0) = Except.ok true :=
  C6_checksum_roundtrip elevCfg 0 0x51 0 0 (by decide) (by decide) (by decide) (by decide)
    (by decide)

/-- C9 (confirmed): a non-stop manual command arms the dead-man timer
0.5 s ahead of its processing time; on a tick whose time has passed an
armed timer the loop issues exactly one `move('stop')` and disarms the
timer; once disarmed, a later tick with no new command issues no stop. -/
theorem C9_deadman_timer :
    ∀ (env : Env) (st : CState) (now now2 : ℚ),
      (process_command env now st "M_up").2.manual_move_expire = now + 1/2 ∧
      (st.manual_move_expire > 0 → now > st.manual_move_expire →
        loop_tick env now none st = ("", true, { st with manual_move_expire := 0 })) ∧
      (loop_tick env now2 none { st with manual_move_expire := 0 }).2.1 = false := by
  intro env st now now2
  refine ⟨rfl, fun h1 h2 => ?_, ?_⟩
  · unfold loop_tick
    rw [if_pos ⟨h1, h2⟩]
  · unfold loop_tick
    rw [if_neg (by simp)]

/-- C2 (amended): `_handle_setpos` contains no elevation sign check: for
every input it either fails to parse (wrong token count or non-numeric
token, empty reply, no exchange) or rounds both values with Python
`round` and forwards them to the standard angle-control path — in
particular `\set_pos 45 -5` with a negative elevation reaches the control
path and, in an environment where every exchange succeeds, is answered
`ACK\r\n`, exactly as `\set_pos 45 5` is. -/
theorem C2_setpos_no_rejection :
    (∀ (env : Env) (rot : RotState) (cmd : List Char),
        handle_setpos env rot cmd = ("", rot) ∨
        ∃ a e : ℚ, handle_setpos env rot cmd =
          execute_angle_control env rot (intChars (pyRound a) ++ ' ' :: intChars (pyRound e))) ∧
    (process_command benignEnv 0 cst0 "\\set_pos 45 -5").1 = "ACK\r\n" ∧
    (process_command benignEnv 0 cst0 "\\set_pos 45 5").1 = "ACK\r\n" := by
  refine ⟨fun env rot cmd => ?_, by decide, by decide⟩
  unfold handle_setpos
  rcases h : pySplitWS cmd with _ | ⟨t0, _ | ⟨t1, _ | _⟩⟩
  · exact Or.inl rfl
  · exact Or.inl rfl
  · rcases h0 : parseFloatChars t0 with _ | a
    · exact Or.inl (by simp [h0])
    · rcases h1 : parseFloatChars t1 with _ | e
      · exact Or.inl (by simp [h0, h1])
      · exact Or.inr ⟨a, e, by simp [h0, h1]⟩
  · exact Or.inl rfl

/-- C2 counterexample: `\set_pos 45 -5` is not silently rejected — the
dispatcher answers it with the non-empty reply `ACK\r\n` when the
hardware exchanges succeed, so the angle-control path was invoked. -/
theorem C2_counterexample :
    (process_command benignEnv 0 cst0 "\\set_pos 45 -5").1 = "ACK\r\n" ∧
    ("ACK\r\n" : String) ≠ "" := by decide

/-- C3 (amended): for a well-formed, within-limits angle-control command
whose azimuth query succeeds, `_execute_angle_control_command` replies
`ACK\r\n` unconditionally — both when the two set transmissions succeed
and when either fails (the source returns `"ACK\r\n"` in both branches,
only logging the partial failure). -/
theorem C3_ack_regardless (env : Env) (rot : RotState) (raw : ℤ) (w_cmd : List Char) (a e : ℚ)
    (hq : env.query_az = some raw)
    (hp : parseTwoFloats w_cmd = some (a, e))
    (hsafe : (get_target_plan (update_raw_angle rot ((raw : ℚ) / 100)) a).2.2 = true) :
    (execute_angle_control env rot w_cmd).1 = "ACK\r\n" := by
  unfold execute_angle_control
  rw [hp, hq]
  simp only [hsafe]
  rw [if_neg (by simp)]
  split <;> rfl

/-- C3 witness: the command `W10 20` from azimuth 0 under default limits
is well-formed and safe, and is answered `ACK\r\n`. -/
theorem C3_ack_regardless_witness :
    (execute_angle_control benignEnv initRotState "10 20".data).1 = "ACK\r\n" :=
  C3_ack_regardless benignEnv initRotState 0 "10 20".data 10 20 (by rfl) (by decide) (by decide)

/-- C3 counterexample: with the elevation set transmission failing and the
azimuth one succeeding, the reply is still `ACK\r\n`, contradicting the
claim that a partial failure is not acknowledged. -/
theorem C3_counterexample :
    (execute_angle_control
        { query_az := some 0, query_el := some 0, send_az_ok := true, send_el_ok := false }
        initRotState "10 20".data).1 = "ACK\r\n" := by decide

/-- C7 counterexample: the logical elevation −5 lies inside the configured
range `[−10, 90]`, is sent as wire value 345, but the read-side correction
decodes that wire value to 355 (centidegrees 35500), which is 360° away
from −5 — far outside the claimed 0.01° tolerance — so the read-side
correction is not the inverse of the set-side mapping on the whole
configured range. -/
theorem C7_counterexample :
    apply_angle_correction elevCfg (send_angle_value (handle_elevation_adjust elevCfg (-5)))
        0x53 = 35500 ∧
    ¬(|(35500 : ℚ) / 100 - (-5)| ≤ 1 / 100) := by decide

/-- Scaling step of the set side evaluated at an exact centidegree
value. -/
theorem send_angle_value_int (k : ℤ) (x : ℚ) (h : x * 100 = (k : ℚ)) :
    send_angle_value x = k := by
  unfold send_angle_value
  rw [h, pyInt_intCast]

/-- Read-side elevation correction evaluated at an exact centidegree
value. -/
theorem apply_elevation_correction_eq (cfg : AngleCorrection) (raw k : ℤ)
    (h : qfmod ((raw : ℚ) / 100 + |cfg.min_elevation|) 360 * 100 = (k : ℚ)) :
    apply_angle_correction cfg raw 0x53 = k := by
  unfold apply_angle_correction
  rw [if_pos rfl, h, pyInt_intCast]

/-- C7 (amended): with `min_elevation = −10` the set side maps logical
angle 5 to wire 355 and 20 to wire 10, and the read side decodes both
wire values back exactly (centidegrees 500 and 2000); in general, for a
centidegree-valued configuration `min_elevation = m/100 ∈ (−360, 0]` and
centidegree-valued logical angle `a/100` with `m ≤ a < 36000`, the
read-side correction inverts the set-side mapping only up to a full turn:
it returns `a` exactly when `a ≥ 0`, but `a + 36000` (the angle plus
360°) for the negative in-range elevations, so the claimed inverse holds
on the non-negative part of the range only. -/
theorem C7_elevation_mapping :
    (handle_elevation_adjust elevCfg 5 = 355 ∧ handle_elevation_adjust elevCfg 20 = 10) ∧
    (apply_angle_correction elevCfg
        (send_angle_value (handle_elevation_adjust elevCfg 5)) 0x53 = 500 ∧
     apply_angle_correction elevCfg
        (send_angle_value (handle_elevation_adjust elevCfg 20)) 0x53 = 2000) ∧
    (∀ (m a : ℤ) (M o i : ℚ),
        -36000 < m → m ≤ 0 → m ≤ a → a < 36000 →
        apply_angle_correction ⟨(m : ℚ) / 100, M, o, i⟩
          (send_angle_value
            (handle_elevation_adjust ⟨(m : ℚ) / 100, M, o, i⟩ ((a : ℚ) / 100))) 0x53 =
          if 0 ≤ a then a else a + 36000) := by
  refine ⟨⟨by decide, by decide⟩, ⟨by decide, by decide⟩, ?_⟩
  intro m a M o i hm1 hm2 hma ha
  have hm1q : (-36000 : ℚ) < (m : ℚ) := by exact_mod_cast hm1
  have hm2q : (m : ℚ) ≤ 0 := by exact_mod_cast hm2
  have hmaq : (m : ℚ) ≤ (a : ℚ) := by exact_mod_cast hma
  have haq : (a : ℚ) < 36000 := by exact_mod_cast ha
  have habs : |((m : ℚ) / 100)| = -((m : ℚ) / 100) :=
    abs_of_nonpos (div_nonpos_iff.mpr (Or.inr ⟨hm2q, by norm_num⟩))
  by_cases hcase : -((m : ℚ) / 100) ≤ (a : ℚ) / 100
  · -- angle ≥ abs_min: wire = (a + m)/100, decode returns a
    have ha0 : (0 : ℚ) ≤ (a : ℚ) := by linarith
    have ha0z : 0 ≤ a := by exact_mod_cast ha0
    have hwire : handle_elevation_adjust ⟨(m : ℚ) / 100, M, o, i⟩ ((a : ℚ) / 100) =
        ((a + m : ℤ) : ℚ) / 100 := by
      unfold handle_elevation_adjust
      simp only [habs]
      rw [if_pos hcase]
      push_cast
      ring
    rw [hwire, send_angle_value_int (a + m) _ (by push_cast; ring)]
    rw [apply_elevation_correction_eq _ _ a ?_, if_pos ha0z]
    simp only [habs]
    have hsum : ((a + m : ℤ) : ℚ) / 100 + -((m : ℚ) / 100) = (a : ℚ) / 100 := by
      push_cast
      ring
    rw [hsum, qfmod_eq_self (by norm_num) (by linarith) (by linarith)]
    ring
  · -- angle < abs_min: wire = 360 + m/100 + a/100, decode returns a mod one turn
    have hwire : handle_elevation_adjust ⟨(m : ℚ) / 100, M, o, i⟩ ((a : ℚ) / 100) =
        ((36000 + m + a : ℤ) : ℚ) / 100 := by
      unfold handle_elevation_adjust
      simp only [habs]
      rw [if_neg hcase]
      push_cast
      ring
    rw [hwire, send_angle_value_int (36000 + m + a) _ (by push_cast; ring)]
    have hsum : ((36000 + m + a : ℤ) : ℚ) / 100 + -((m : ℚ) / 100) = 360 + (a : ℚ) / 100 := by
      push_cast
      ring
    by_cases ha0 : 0 ≤ a
    · have ha0q : (0 : ℚ) ≤ (a : ℚ) := by exact_mod_cast ha0
      rw [apply_elevation_correction_eq _ _ a ?_, if_pos ha0]
      simp only [habs]
      rw [hsum, qfmod_add_left _ (by norm_num),
        qfmod_eq_self (by norm_num) (by linarith) (by linarith)]
      ring
    · have ha0q : (a : ℚ) < 0 := by exact_mod_cast not_le.mp ha0
      rw [apply_elevation_correction_eq _ _ (a + 36000) ?_, if_neg ha0]
      simp only [habs]
      rw [hsum, qfmod_eq_self (by norm_num) (by linarith) (by linarith)]
      push_cast
      ring

/-- C8 counterexample: an all-zero 7-byte frame is checksum-correct and
carries raw value `(byte[4]<<8)|byte[5] = 0`, but under the example
configuration (`min_elevation = −10`) the elevation query returns
`some 1000` (the angle-corrected value), not the raw 0 the claim
promises. -/
theorem C8_counterexample :
    query_angle elevCfg 1 0x53 true [[], [0, 0, 0, 0, 0, 0, 0]] = Except.ok (some 1000) ∧
    (([0, 0, 0, 0, 0, 0, 0] : List ℕ).getD 4 0) <<< 8 |||
      ([0, 0, 0, 0, 0, 0, 0] : List ℕ).getD 5 0 = 0 ∧
    (1000 : ℤ) ≠ 0 := by decide

/-- The angle-control command replies with the empty string, the limit
rejection, or the acknowledgement. -/
theorem control_reply_cases (env : Env) (rot : RotState) (w : List Char) :
    (execute_angle_control env rot w).1 = "" ∨
    (execute_angle_control env rot w).1 = "?> \r\n" ∨
    (execute_angle_control env rot w).1 = "ACK\r\n" := by
  unfold execute_angle_control
  rcases hp : parseTwoFloats w with _ | ⟨a, e⟩
  · exact Or.inl rfl
  · rcases hq : env.query_az with _ | raw
    · exact Or.inl rfl
    · simp only
      split_ifs with h1 h2
      · exact Or.inr (Or.inl rfl)
      · exact Or.inr (Or.inr rfl)
      · exact Or.inr (Or.inr rfl)

/-- The angle-query command replies with the empty string or a formatted
`AZ= EL=` line. -/
theorem query_reply_cases (env : Env) (rot : RotState) :
    (execute_angle_query env rot).1 = "" ∨
    ∃ a e : ℤ, (execute_angle_query env rot).1 = az_el_response a e := by
  unfold execute_angle_query
  rcases hq : env.query_az with _ | az
  · exact Or.inl rfl
  · rcases he : env.query_el with _ | el
    · exact Or.inl rfl
    · exact Or.inr ⟨_, _, rfl⟩

/-- The `\set_pos` handler replies like the angle-control path it
forwards to, or with the empty string on a parse failure. -/
theorem setpos_reply_cases (env : Env) (rot : RotState) (cmd : List Char) :
    (handle_setpos env rot cmd).1 = "" ∨
    (handle_setpos env rot cmd).1 = "?> \r\n" ∨
    (handle_setpos env rot cmd).1 = "ACK\r\n" := by
  unfold handle_setpos
  rcases h : pySplitWS cmd with _ | ⟨t0, _ | ⟨t1, _ | _⟩⟩
  · exact Or.inl rfl
  · exact Or.inl rfl
  · rcases h0 : parseFloatChars t0 with _ | a
    · exact Or.inl (by simp [h0])
    · rcases h1 : parseFloatChars t1 with _ | e
      · exact Or.inl (by simp [h0, h1])
      · have hc := control_reply_cases env rot (intChars (pyRound a) ++ ' ' :: intChars (pyRound e))
        simpa [h0, h1] using hc
  · exact Or.inl rfl

/-- The combined command replies with the empty string or an `AZ= EL=`
line. -/
theorem combined_reply_cases (env : Env) (rot : RotState) (cmd : List Char) :
    (handle_combined env rot cmd).1 = "" ∨
    ∃ a e : ℤ, (handle_combined env rot cmd).1 = az_el_response a e := by
  unfold handle_combined
  simp only
  split_ifs <;> first
    | exact query_reply_cases env _
    | exact Or.inl rfl

/-- C5 (amended): every reply the command router writes back is one of
`""`, `"ACK\r\n"`, `"?> \r\n"`, an `AZ=%03d EL=%03d\r\n` line — or one of
the two forms the claim omits: the bare `"\r\n"` of the `S` stop handler
and the CRLF-less `"ACK"` of the `M_<direction>` manual handler. -/
theorem C5_response_forms (env : Env) (now : ℚ) (st : CState) (cmd : String) :
    (process_command env now st cmd).1 = "" ∨
    (process_command env now st cmd).1 = "ACK\r\n" ∨
    (process_command env now st cmd).1 = "?> \r\n" ∨
    (process_command env now st cmd).1 = "\r\n" ∨
    (process_command env now st cmd).1 = "ACK" ∨
    ∃ a e : ℤ, (process_command env now st cmd).1 = az_el_response a e := by
  unfold process_command
  dsimp only
  split_ifs with h1 h2 h3 h4 h5 h6
  · unfold handle_manual
    dsimp only
    split_ifs <;> exact Or.inr (Or.inr (Or.inr (Or.inr (Or.inl rfl))))
  · rcases combined_reply_cases env st.rot cmd.data with h | ⟨a, e, h⟩
    · exact Or.inl (by simpa using h)
    · exact Or.inr (Or.inr (Or.inr (Or.inr (Or.inr ⟨a, e, by simpa using h⟩))))
  · rcases query_reply_cases env st.rot with h | ⟨a, e, h⟩
    · exact Or.inl (by simpa using h)
    · exact Or.inr (Or.inr (Or.inr (Or.inr (Or.inr ⟨a, e, by simpa using h⟩))))
  · rcases control_reply_cases env st.rot (trimChars (cmd.data.drop 1)) with h | h | h
    · exact Or.inl (by simpa using h)
    · exact Or.inr (Or.inr (Or.inl (by simpa using h)))
    · exact Or.inr (Or.inl (by simpa using h))
  · exact Or.inr (Or.inr (Or.inr (Or.inl rfl)))
  · rcases setpos_reply_cases env st.rot (trimChars (cmd.data.drop 8)) with h | h | h
    · exact Or.inl (by simpa using h)
    · exact Or.inr (Or.inr (Or.inl (by simpa using h)))
    · exact Or.inr (Or.inl (by simpa using h))
  · exact Or.inl rfl

/-- C5 counterexample: the `S` stop command is answered with the bare
`"\r\n"`, a non-empty reply that is none of the four claimed forms. -/
theorem C5_counterexample :
    (process_command benignEnv 0 cst0 "S").1 = "\r\n" ∧
    ¬((("\r\n" : String) = "ACK\r\n") ∨
      (∃ a e : ℤ, ("\r\n" : String) = az_el_response a e) ∨
      (("\r\n" : String) = "?> \r\n") ∨ (("\r\n" : String) = "")) := by
  refine ⟨by decide, ?_⟩
  rintro (h | ⟨a, e, h⟩ | h | h)
  · exact absurd h (by decide)
  · have h2 : some '\r' = some 'A' := congrArg (fun s : String => s.data.head?) h
    exact absurd h2 (by decide)
  · exact absurd h (by decide)
  · exact absurd h (by decide)

/-- When every chunk a read can return is empty, an echo, of the wrong
length or checksum-invalid, the retry loop of `query_angle` returns
`none` for any retry budget. -/
theorem query_read_loop_none (cfg : AngleCorrection) (packet : List ℕ) (qc : ℕ) :
    ∀ (n : ℕ) (s : List (List ℕ)),
      (∀ r ∈ s, r = [] ∨ r = packet ∨ r.length ≠ 7 ∨
        validate_response cfg r = Except.ok false) →
      query_read_loop cfg packet qc n s = Except.ok none := by
  intro n
  induction n with
  | zero => intro s _; rfl
  | succ k ih =>
    intro s hs
    cases s with
    | nil => simpa [query_read_loop, recvOne] using ih [] (by simp)
    | cons h t =>
      have ht : ∀ r ∈ t, r = [] ∨ r = packet ∨ r.length ≠ 7 ∨
          validate_response cfg r = Except.ok false :=
        fun r hr => hs r (List.mem_cons_of_mem _ hr)
      have hrec := ih t ht
      by_cases hc : h = [] ∨ h = packet
      · simp [query_read_loop, recvOne, hc, hrec]
      · by_cases hlen : h.length = 7
        · rcases hs h (List.mem_cons_self _ _) with h1 | h1 | h1 | h1
          · exact absurd (Or.inl h1) hc
          · exact absurd (Or.inr h1) hc
          · exact absurd hlen h1
          · simp [query_read_loop, recvOne, hc, hlen, h1, hrec]
        · simp [query_read_loop, recvOne, hc, hlen, hrec]

/-- C8 (amended): `query_angle` flushes stale input (at most 10 reads),
then reads at most 3 times, skipping empty reads and exact echoes of the
outgoing frame; the first 7-byte checksum-correct response yields
`some (apply_angle_correction raw)` where `raw = (byte[4]<<8)|byte[5]` —
the angle-corrected value, not the raw value the claim states; a failed
send returns `none`, and when no valid frame is available the retry
budget runs out and the call returns `none`. -/
theorem C8_query_angle :
    (∀ (cfg : AngleCorrection) (address query_cmd : ℕ) (stream : List (List ℕ))
        (r : List ℕ) (rest : List (List ℕ)),
        flushStream 10 stream = r :: rest →
        r ≠ [] → r ≠ generate_packet address 0 query_cmd 0 0 → r.length = 7 →
        validate_response cfg r = Except.ok true →
        query_angle cfg address query_cmd true stream =
          Except.ok (some (apply_angle_correction cfg
            (((r.getD 4 0) <<< 8 ||| r.getD 5 0 : ℕ) : ℤ) query_cmd))) ∧
    (∀ (cfg : AngleCorrection) (address query_cmd : ℕ) (stream : List (List ℕ)),
        query_angle cfg address query_cmd false stream = Except.ok none) ∧
    (∀ (cfg : AngleCorrection) (address query_cmd : ℕ) (stream : List (List ℕ)),
        (∀ r ∈ flushStream 10 stream,
          r = [] ∨ r = generate_packet address 0 query_cmd 0 0 ∨ r.length ≠ 7 ∨
            validate_response cfg r = Except.ok false) →
        query_angle cfg address query_cmd true stream = Except.ok none) := by
  refine ⟨fun cfg address query_cmd stream r rest hflush hne hecho hlen hvalid => ?_,
    fun cfg address query_cmd stream => rfl,
    fun cfg address query_cmd stream hbad => ?_⟩
  · unfold query_angle
    rw [hflush]
    simp [query_read_loop, recvOne, hne, hecho, hlen, hvalid]
  · unfold query_angle
    exact query_read_loop_none cfg _ query_cmd 3 _ hbad

/-- C10 (amended): frame validation reads `response[-1]` before the
configuration check, so it raises `IndexError` on the empty response
under any configuration; on every non-empty response under a well-formed
configuration (`min_elevation ≤ max_elevation`) it never raises and
returns the checksum boolean; under an inverted configuration every
received 7-byte non-echo response makes `query_angle` throw, but a
non-empty non-echo response of any other length skips validation
entirely and cannot throw — inside `query_angle` validation is reached
only behind the length-7 test, so the empty-response raise is
unreachable there and, with a well-formed configuration, `query_angle`
is total. -/
theorem C10_validation_raise :
    (∀ (cfg : AngleCorrection),
        validate_response cfg [] = Except.error "IndexError: response is empty") ∧
    (∀ (cfg : AngleCorrection) (response : List ℕ),
        cfg.min_elevation ≤ cfg.max_elevation → response ≠ [] →
        validate_response cfg response =
          Except.ok (((response.drop 1).dropLast).sum % 256 == (response.getLast?).getD 0)) ∧
    (∀ (cfg : AngleCorrection) (address query_cmd : ℕ) (stream : List (List ℕ))
        (r : List ℕ) (rest : List (List ℕ)),
        cfg.min_elevation > cfg.max_elevation →
        flushStream 10 stream = r :: rest →
        r ≠ [] → r ≠ generate_packet address 0 query_cmd 0 0 → r.length = 7 →
        query_angle cfg address query_cmd true stream =
          Except.error "min elevation exceeds max elevation") ∧
    query_angle invCfg 1 0x51 true [[], [0]] = Except.ok none := by
  refine ⟨fun cfg => rfl, fun cfg response hle hne => ?_,
    fun cfg address query_cmd stream r rest hinv hflush hne hecho hlen => ?_, by decide⟩
  · unfold validate_response
    rcases hl : response.getLast? with _ | x
    · exact absurd (List.getLast?_eq_none_iff.mp hl) hne
    · simp [hl, not_lt.mpr hle]
  · have hval : validate_response cfg r = Except.error "min elevation exceeds max elevation" := by
      unfold validate_response
      rcases hl : r.getLast? with _ | x
      · exact absurd (List.getLast?_eq_none_iff.mp hl) hne
      · simp [hl, hinv]
    unfold query_angle
    rw [hflush]
    simp [query_read_loop, recvOne, hne, hecho, hlen, hval]

/-- C10 counterexample: under the inverted configuration
(`min_elevation = 1 > 0 = max_elevation`), a received 1-byte response —
non-empty and no echo of the outgoing frame — does not make `query_angle`
throw: short responses skip validation entirely and the call returns
`none`, contradicting the claim that any non-empty, non-echo response can
trigger the raise. -/
theorem C10_counterexample :
    invCfg.min_elevation > invCfg.max_elevation ∧
    ([0] : List ℕ) ≠ [] ∧
    ([0] : List ℕ) ≠ generate_packet 1 0 0x51 0 0 ∧
    query_angle invCfg 1 0x51 true [[], [0]] = Except.ok none := by decide

end PTZ
